import Mathlib

/-!
Verification development for the Auto-Outlook-Accounts-Creator repository.
The definitions below are a shallow embedding of the Python sources
(`outlook_account_creator.py`, `proxy_manager.py`, `config.py`): browser and
page observations (URLs, page texts, whether a page read raised) are passed in
as explicit parameters or oracles, and wall-clock sleeps are recorded as data.
-/

/-- Python substring helper: list-of-chars version of testing whether the first
list occurs at the front of the second. -/
def charsHavePre : List Char → List Char → Bool
  | [], _ => true
  | _ :: _, [] => false
  | a :: as, b :: bs => a == b && charsHavePre as bs

/-- Python substring helper: whether the needle occurs anywhere in the
haystack. -/
def charsHaveSub (needle : List Char) : List Char → Bool
  | [] => charsHavePre needle []
  | b :: bs => charsHavePre needle (b :: bs) || charsHaveSub needle bs

/-- Embedding of the Python expression `needle in haystack` on strings. -/
def strContains (haystack needle : String) : Bool :=
  charsHaveSub needle.data haystack.data

/-- Embedding of `config.EMAIL_DOMAIN` from `config.py`. -/
def EMAIL_DOMAIN : String := "outlook.com"

/-- Embedding of `config.FIXED_PASSWORD` from `config.py`. -/
def FIXED_PASSWORD : String := "Outlook234!"

/-- Embedding of `OutlookAccountCreator.generate_password`, which returns
`config.FIXED_PASSWORD`. -/
def generate_password : String := FIXED_PASSWORD

/-- Embedding of the fragment derivation in `create_account`
(`outlook_account_creator.py` lines 158-161): the Python expression
`(s[:4] if len(s) >= 4 else s + 'x' * (4 - len(s)))[:4]` applied to the
(already lowercased) second surname, on its character list. -/
def secondLast4 (second_last_name : List Char) : List Char :=
  (if 4 ≤ second_last_name.length then second_last_name.take 4
   else second_last_name ++ List.replicate (4 - second_last_name.length) 'x').take 4

/-- Embedding of Python `str.lower()` on a character list. -/
def lowerChars (s : List Char) : List Char := s.map Char.toLower

/-- Embedding of the username derivation in `create_account` (lines 163-166):
`f"{first_lower}{last_lower}{second_last_4}"` where the fragment comes from the
lowercased second surname. -/
def localPart (first_name last_name second_last_name : String) : String :=
  String.mk (lowerChars first_name.data) ++ String.mk (lowerChars last_name.data) ++
    String.mk (secondLast4 (lowerChars second_last_name.data))

/-- Embedding of `f"{username}@outlook.com"` (`create_account` line 176). -/
def mkEmail (username : String) : String := username ++ "@outlook.com"

/-- Two-digit zero padding, as in the Python format `{m:02d}`. -/
def pad2 (n : Nat) : String := if n < 10 then "0" ++ toString n else toString n

/-- Embedding of the Python format `f"{birth_year}-{birth_month:02d}-{birth_day:02d}"`. -/
def birthDateStr (y m d : Nat) : String :=
  toString y ++ "-" ++ pad2 m ++ "-" ++ pad2 d

/-- The identity generated at the start of `create_account`: names from the
name source, derived email local-part, the fixed password, and a birth date. -/
structure Identity where
  email : String
  password : String
  first_name : String
  last_name : String
  birth_date : String
deriving DecidableEq, Repr

/-- Embedding of the account-detail generation in `create_account`
(lines 154-176): the three surname strings and the birth numbers stand for the
values drawn from the random name source. -/
def generateIdentity (first_name last_name second_last_name : String)
    (y m d : Nat) : Identity :=
  { email := mkEmail (localPart first_name last_name second_last_name)
    password := generate_password
    first_name := first_name
    last_name := last_name
    birth_date := birthDateStr y m d }

/-- The dictionary returned by a successful `create_account` run. -/
structure Account where
  email : String
  password : String
  first_name : String
  last_name : String
  birth_date : String
  created_at : String
deriving DecidableEq, Repr

/- ## Proxy manager (`proxy_manager.py`) -/

/-- Embedding of the `ProxyManager` object state: the loaded proxy list and
the rotation cursor `self.current_index`. -/
structure ProxyManager where
  proxies : List String
  current_index : Nat
deriving DecidableEq, Repr

/-- Embedding of `ProxyManager.__init__`: the cursor starts at 0. -/
def mkProxyManager (pool : List String) : ProxyManager :=
  { proxies := pool, current_index := 0 }

/-- Embedding of `ProxyManager.get_next_proxy`: on an empty pool return
`none`; otherwise return the proxy at the cursor and advance the cursor
modulo the pool length. The pair is (returned value, state after the call). -/
def get_next_proxy (pm : ProxyManager) : Option String × ProxyManager :=
  if pm.proxies = [] then (none, pm)
  else
    (pm.proxies.get? pm.current_index,
     { pm with current_index := (pm.current_index + 1) % pm.proxies.length })

/-- Embedding of `ProxyManager.get_random_proxy`: on an empty pool return
`none`; otherwise return an arbitrary element, the draw of `random.choice`
being modelled by the index argument. The state is not changed. -/
def get_random_proxy (pm : ProxyManager) (choice : Nat) : Option String :=
  if pm.proxies = [] then none
  else pm.proxies.get? (choice % pm.proxies.length)

/-- State of a `ProxyManager` after `k` calls to `get_next_proxy`. -/
def stateAfterCalls (pm : ProxyManager) : Nat → ProxyManager
  | 0 => pm
  | k + 1 => (get_next_proxy (stateAfterCalls pm k)).2

/-- Value returned by the `k`-th call (`k ≥ 1`) to `get_next_proxy` on a
freshly constructed `ProxyManager` over `pool`. -/
def kthNextProxy (pool : List String) (k : Nat) : Option String :=
  (get_next_proxy (stateAfterCalls (mkProxyManager pool) (k - 1))).1

/-- States of a `ProxyManager` reachable from construction by any sequence of
`get_next_proxy` and `get_random_proxy` calls (`get_random_proxy` does not
mutate the state). -/
inductive Reachable : ProxyManager → Prop
  | init (pool : List String) : Reachable (mkProxyManager pool)
  | next {pm : ProxyManager} : Reachable pm → Reachable (get_next_proxy pm).2
  | random {pm : ProxyManager} (choice : Nat) : Reachable pm → Reachable pm

/- ## Username-conflict retry loop (`create_account` lines 224-269) -/

/-- Result of the email/username entry loop of `create_account`: in either
case the payload counts how many distinct usernames were typed into the form.
`failed` means `create_account` returns `None` at this step. -/
inductive EmailStep where
  | accepted (typed : Nat)
  | failed (typed : Nat)
deriving DecidableEq, Repr

/-- Number of usernames typed during the email step. -/
def EmailStep.typed : EmailStep → Nat
  | .accepted n => n
  | .failed n => n

/-- Embedding of the loop `for attempt in range(3)` of `create_account`
(lines 228-265). The oracle `check attempt` is the outcome of reading the
page body text after typing the username of that attempt: `some true` means
the text shows the taken-username marker, `some false` means it does not, and
`none` means the read raised an exception (in which case the code assumes the
email is accepted and breaks). The second argument is the attempt index, the
third the remaining loop iterations. -/
def emailLoopAux (check : Nat → Option Bool) : Nat → Nat → EmailStep
  | attempt, 0 => .failed attempt
  | attempt, fuel + 1 =>
    match check attempt with
    | some true =>
      if attempt < 2 then emailLoopAux check (attempt + 1) fuel
      else .failed (attempt + 1)
    | some false => .accepted (attempt + 1)
    | none => .accepted (attempt + 1)

/-- The email step of `create_account`: the loop runs from attempt 0 with
`max_email_attempts = 3`. -/
def emailStep (check : Nat → Option Bool) : EmailStep :=
  emailLoopAux check 0 3

/- ## CAPTCHA wait loop (`create_account` lines 825-887) -/

/-- Embedding of the CAPTCHA wait loop of `create_account` (lines 856-887):
`while (time.time() - start_time) < max_wait: time.sleep(2); check`.
Tick `k` is the check made after the `(k+1)`-th two-second sleep, so it
happens `2*(k+1)` seconds in; the loop condition `elapsed < 180` admits ticks
`0..89`, so the fuel is 90. The oracle `present k` tells whether the
challenge marker is still observed at tick `k` (an unreadable page counts as
still present, per the except-pass). `some k` means the marker disappeared at
tick `k` and the state machine resumes there; `none` means the ceiling was
reached and `create_account` returns `None`. -/
def captchaPollAux (present : Nat → Bool) : Nat → Nat → Option Nat
  | _, 0 => none
  | k, fuel + 1 =>
    if present k then captchaPollAux present (k + 1) fuel else some k

/-- The CAPTCHA wait of `create_account`: 180-second ceiling with 2-second
polls, hence 90 ticks. -/
def captchaWait (present : Nat → Bool) : Option Nat :=
  captchaPollAux present 0 90

/- ## Final outcome classification of `create_account` (lines 896-945) -/

/-- Embedding of the `success_indicators` list of `create_account`
(lines 901-906). -/
def success_indicators : List String :=
  ["outlook.live.com", "account.microsoft.com", "signup.live.com/proofs",
   "/signup?wa=wsignin"]

/-- Embedding of `any(indicator in current_url for indicator in
success_indicators)` in `create_account`. -/
def isSuccessUrl (url : String) : Bool :=
  success_indicators.any (fun ind => strContains url ind)

/-- Embedding of the final verification step of `create_account`
(lines 896-945). `url0` is the URL observed first, `urlAfterWait` the URL
observed after the single `time.sleep(30)` manual-intervention wait. The
first component is the returned value (`some` = the account dictionary,
`none` = failure); the second lists the sleep durations, in seconds, of the
re-poll waits actually performed. -/
def verifyCreate (acct : Account) (url0 urlAfterWait : String) :
    Option Account × List Nat :=
  if isSuccessUrl url0 then (some acct, [])
  else if strContains url0 "signup.live.com" then
    if isSuccessUrl urlAfterWait then (some acct, [30]) else (none, [30])
  else (none, [])

/- ## Final classification of `create_account_keep_open` (lines 1698-1777) -/

/-- Embedding of the expanded `success_indicators` list of
`create_account_keep_open` (lines 1699-1706). -/
def ko_success_indicators : List String :=
  ["outlook.live.com", "outlook.office.com", "account.microsoft.com",
   "signup.live.com/proofs", "/signup?wa=wsignin", "login.live.com/login"]

/-- Embedding of the URL success test of `create_account_keep_open`. -/
def isSuccessUrlKO (url : String) : Bool :=
  ko_success_indicators.any (fun ind => strContains url ind)

/-- Embedding of the page-text success phrases of `create_account_keep_open`
(line 1714). -/
def success_phrases : List String :=
  ["welcome", "you\x27re all set", "inbox", "get started"]

/-- Embedding of `any(phrase in page_text for phrase in [...])` on the
lowercased page text in `create_account_keep_open`. -/
def textSuccess (pageText : String) : Bool :=
  success_phrases.any (fun p => strContains pageText p)

/-- Result dictionary of `create_account_keep_open`: every key the function
may put in its returned dict. `driver = true` records that the live driver
object is included; an absent key is `none`. -/
structure KeepOpenResult where
  driver : Bool
  email : Option String
  password : Option String
  first_name : Option String
  last_name : Option String
  birth_date : Option String
  created_at : Option String
  error : Option String
deriving DecidableEq, Repr

/-- Embedding of the manual-intervention re-poll loop of
`create_account_keep_open` (lines 1743-1777): `for i in range(12):
time.sleep(5); check url`. `urlAt i` is the URL observed at poll tick `i`
(5·(i+1) seconds in). Both the in-loop success return (lines 1751-1759) and
the after-loop timeout return (lines 1769-1777) are written out as the source
writes them. The second component lists the sleeps performed, in seconds. -/
def koPollAux (ident : Identity) (now : String) (urlAt : Nat → String) :
    Nat → Nat → KeepOpenResult × List Nat
  | _, 0 =>
    ({ driver := true, email := some ident.email, password := some ident.password,
       first_name := some ident.first_name, last_name := some ident.last_name,
       birth_date := some ident.birth_date, created_at := some now,
       error := none }, [])
  | i, fuel + 1 =>
    if isSuccessUrlKO (urlAt i) then
      ({ driver := true, email := some ident.email, password := some ident.password,
         first_name := some ident.first_name, last_name := some ident.last_name,
         birth_date := some ident.birth_date, created_at := some now,
         error := none }, [5])
    else
      let r := koPollAux ident now urlAt (i + 1) fuel
      (r.1, 5 :: r.2)

/-- Embedding of the final classification of `create_account_keep_open`
(lines 1708-1777): immediate success when the first URL matches an indicator
or the page text holds a success phrase (lines 1709-1732), else the 12 × 5 s
re-poll loop. The second component lists the sleeps performed, in seconds. -/
def keepOpenVerify (ident : Identity) (now : String) (url0 pageText : String)
    (urlAt : Nat → String) : KeepOpenResult × List Nat :=
  if isSuccessUrlKO url0 || textSuccess pageText then
    ({ driver := true, email := some ident.email, password := some ident.password,
       first_name := some ident.first_name, last_name := some ident.last_name,
       birth_date := some ident.birth_date, created_at := some now,
       error := none }, [])
  else koPollAux ident now urlAt 0 12

/- ## Batch orchestrator (`create_bulk_accounts`, lines 1899-1975) -/

/-- Embedding of the CSV row written for one successful account
(lines 1954-1960). -/
def accountRow (a : Account) : List String :=
  [a.email, a.password, a.first_name, a.last_name, a.birth_date]

/-- Embedding of the iteration body of `create_bulk_accounts` (lines
1937-1967) over the per-iteration results of `create_account` (in iteration
order): a success is appended to the in-memory list and its row appended to
the CSV file; a failure is only logged and the loop continues. Returns the
accumulated account list and the rows appended. -/
def bulkLoop : List (Option Account) → List Account × List (List String)
  | [] => ([], [])
  | some a :: rest =>
    let r := bulkLoop rest
    (a :: r.1, accountRow a :: r.2)
  | none :: rest => bulkLoop rest

/-- Embedding of `create_bulk_accounts` over the list of per-iteration
results: the returned account list, the CSV rows appended, and the final
summary `Successfully created: {len(accounts)}/{count}` as the pair
(successes, requested count) (line 1971). -/
def create_bulk_accounts (results : List (Option Account)) :
    List Account × List (List String) × (Nat × Nat) :=
  let r := bulkLoop results
  (r.1, r.2, (r.1.length, results.length))

/- ## Concrete sample values used by closed theorems -/

/-- Sample identity used by closed counterexample and witness theorems. -/
def sampleIdentity : Identity :=
  { email := "johndoeabcd@outlook.com", password := FIXED_PASSWORD,
    first_name := "John", last_name := "Doe", birth_date := "1990-01-15" }

/-- Sample account used by closed counterexample and witness theorems. -/
def sampleAccount : Account :=
  { email := "johndoeabcd@outlook.com", password := FIXED_PASSWORD,
    first_name := "John", last_name := "Doe", birth_date := "1990-01-15",
    created_at := "2026-01-01 00:00:00" }

/-- The ambiguous final URL named by the specification. -/
def ambiguousUrl : String := "https://signup.live.com/landing?step=2"

/- ## Helper lemmas -/

theorem stateAfterCalls_empty (j : Nat) :
    stateAfterCalls (mkProxyManager []) j = mkProxyManager [] := by
  induction j with
  | zero => rfl
  | succ j ih =>
    show (get_next_proxy (stateAfterCalls (mkProxyManager []) j)).2 = mkProxyManager []
    rw [ih]
    rfl

theorem stateAfterCalls_spec (pool : List String) (h : pool ≠ []) (j : Nat) :
    (stateAfterCalls (mkProxyManager pool) j).proxies = pool ∧
    (stateAfterCalls (mkProxyManager pool) j).current_index = j % pool.length := by
  induction j with
  | zero => exact ⟨rfl, (Nat.zero_mod pool.length).symm⟩
  | succ j ih =>
    obtain ⟨hp, hi⟩ := ih
    constructor
    · show (get_next_proxy (stateAfterCalls (mkProxyManager pool) j)).2.proxies = pool
      simp [get_next_proxy, hp, h]
    · show (get_next_proxy (stateAfterCalls (mkProxyManager pool) j)).2.current_index =
        (j + 1) % pool.length
      simp only [get_next_proxy, hp, if_neg h, hi]
      exact (Nat.mod_modEq j pool.length).add_right 1

/- ## Claim theorems: proxy rotation -/

/-- C5: for every pool of size n > 0 and every k ≥ 1, the k-th call to
`get_next_proxy` returns pool[(k-1) mod n], wrapping at the list end; on the
empty pool every call returns `none` and never raises. -/
theorem get_next_proxy_round_robin (pool : List String) (k : Nat) (_hk : 1 ≤ k) :
    (pool ≠ [] → kthNextProxy pool k = pool.get? ((k - 1) % pool.length) ∧
      (kthNextProxy pool k).isSome = true) ∧
    kthNextProxy [] k = none := by
  constructor
  · intro h
    obtain ⟨hp, hi⟩ := stateAfterCalls_spec pool h (k - 1)
    have hval : kthNextProxy pool k = pool.get? ((k - 1) % pool.length) := by
      show (get_next_proxy (stateAfterCalls (mkProxyManager pool) (k - 1))).1 = _
      rw [get_next_proxy, hp, if_neg h, hi]
    refine ⟨hval, ?_⟩
    rw [hval, List.get?_eq_get (Nat.mod_lt _ (List.length_pos.mpr h))]
    rfl
  · show (get_next_proxy (stateAfterCalls (mkProxyManager []) (k - 1))).1 = none
    rw [stateAfterCalls_empty]
    rfl

/-- Witness for C5 at the pool [a, b, c] and k = 5: the 5th call returns
pool[(5-1) mod 3] = pool[1] = b, and on the empty pool the 5th call returns
none. -/
theorem get_next_proxy_round_robin_witness :
    kthNextProxy ["a", "b", "c"] 5 = some "b" ∧ kthNextProxy [] 5 = none := by
  have h := get_next_proxy_round_robin ["a", "b", "c"] 5 (by decide)
  refine ⟨?_, (get_next_proxy_round_robin [] 5 (by decide)).2⟩
  rw [(h.1 (by decide)).1]
  rfl

/-- C8 counterexample: the freshly constructed manager over the empty pool is
reachable, yet its cursor 0 does not lie in [0, len) = [0, 0); so the claimed
invariant fails as stated on the empty pool. -/
theorem proxy_cursor_invariant_counterexample :
    Reachable (mkProxyManager []) ∧
    ¬ (mkProxyManager ([] : List String)).current_index <
        (mkProxyManager ([] : List String)).proxies.length :=
  ⟨Reachable.init [], by decide⟩

/-- C8 (amended): for every reachable ProxyManager, if the pool is nonempty
the cursor lies in [0, len(proxies)); on the empty pool the cursor stays 0
(outside [0, 0)) and both operations return `none` rather than raising. -/
theorem proxy_cursor_invariant_amended (pm : ProxyManager) (h : Reachable pm) :
    (pm.proxies ≠ [] → pm.current_index < pm.proxies.length) ∧
    (pm.proxies = [] →
      pm.current_index = 0 ∧ (get_next_proxy pm).1 = none ∧
      ∀ c, get_random_proxy pm c = none) := by
  induction h with
  | init pool =>
    constructor
    · intro hne
      exact List.length_pos.mpr hne
    · intro he
      simp only [mkProxyManager] at he
      subst he
      exact ⟨rfl, rfl, fun c => rfl⟩
  | next hr ih =>
    rename_i pm
    by_cases he : pm.proxies = []
    · have hid : get_next_proxy pm = (none, pm) := by
        rw [get_next_proxy, if_pos he]
      rw [hid]
      exact ih
    · constructor
      · intro _
        have hgoal : (get_next_proxy pm).2 =
            { pm with current_index := (pm.current_index + 1) % pm.proxies.length } := by
          rw [get_next_proxy, if_neg he]
        rw [hgoal]
        exact Nat.mod_lt _ (List.length_pos.mpr he)
      · intro hcontra
        exfalso
        apply he
        simpa [get_next_proxy, if_neg he] using hcontra
  | random choice hr ih => exact ih

/-- Witness for C8 (amended): on the singleton pool [p], the initial state is
reachable and its cursor 0 lies below the pool length 1. -/
theorem proxy_cursor_invariant_amended_witness :
    (mkProxyManager ["p"]).current_index < (mkProxyManager ["p"]).proxies.length :=
  (proxy_cursor_invariant_amended (mkProxyManager ["p"]) (Reachable.init ["p"])).1
    (by decide)

/- ## Claim theorems: identity generation -/

/-- C6: the local-part disambiguation fragment always has exactly width 4:
the first 4 characters of the source surname when it has at least 4, and the
surname right-padded with the filler character x to width 4 when shorter. -/
theorem fragment_width_spec (s : List Char) :
    (secondLast4 s).length = 4 ∧
    (4 ≤ s.length → secondLast4 s = s.take 4) ∧
    (s.length < 4 → secondLast4 s = s ++ List.replicate (4 - s.length) 'x') := by
  by_cases h : 4 ≤ s.length
  · refine ⟨?_, fun _ => ?_, fun hlt => absurd h (by omega)⟩
    · rw [secondLast4, if_pos h, List.take_take]
      simp only [List.length_take]
      omega
    · rw [secondLast4, if_pos h, List.take_take]
      norm_num
  · have hlt : s.length < 4 := by omega
    have hlen : (s ++ List.replicate (4 - s.length) 'x').length = 4 := by
      simp only [List.length_append, List.length_replicate]
      omega
    refine ⟨?_, fun hge => absurd hge h, fun _ => ?_⟩
    · rw [secondLast4, if_neg h, List.take_of_length_le (le_of_eq hlen), hlen]
    · rw [secondLast4, if_neg h, List.take_of_length_le (le_of_eq hlen)]

/-- Witness for C6 at the specification example: surname Oz, lowercased,
yields the fragment ozxx of width 4. -/
theorem fragment_width_spec_witness :
    secondLast4 (lowerChars "Oz".data) = "ozxx".data ∧
    (secondLast4 (lowerChars "Oz".data)).length = 4 := by
  constructor
  · rw [(fragment_width_spec (lowerChars "Oz".data)).2.2 (by decide)]
    decide
  · exact (fragment_width_spec (lowerChars "Oz".data)).1

/-- C7: for every generated identity the email is the derived local-part,
then the at sign, then the fixed domain, and the password is the single
configured constant, the same across all identities. -/
theorem identity_email_password_spec (fn ln sln : String) (y m d : Nat) :
    (generateIdentity fn ln sln y m d).email =
      localPart fn ln sln ++ "@" ++ EMAIL_DOMAIN ∧
    (generateIdentity fn ln sln y m d).password = FIXED_PASSWORD := by
  constructor
  · show mkEmail (localPart fn ln sln) = _
    rw [mkEmail, String.append_assoc]
    rfl
  · rfl

/- ## Claim theorems: username retry and CAPTCHA wait -/

theorem emailLoopAux_typed_le (check : Nat → Option Bool) :
    ∀ fuel attempt, (emailLoopAux check attempt fuel).typed ≤ attempt + fuel := by
  intro fuel
  induction fuel with
  | zero =>
    intro attempt
    simp [emailLoopAux, EmailStep.typed]
  | succ fuel ih =>
    intro attempt
    rw [emailLoopAux]
    cases hc : check attempt with
    | none => simp [EmailStep.typed]
    | some b =>
      cases b with
      | true =>
        show (if attempt < 2 then emailLoopAux check (attempt + 1) fuel
          else .failed (attempt + 1)).typed ≤ attempt + (fuel + 1)
        by_cases ha : attempt < 2
        · rw [if_pos ha]
          have := ih (attempt + 1)
          omega
        · rw [if_neg ha]
          simp [EmailStep.typed]
      | false => simp [EmailStep.typed]

/-- C1: when the page reports the username taken on every attempt, exactly 3
usernames are tried and the 3rd conflict fails the whole attempt
(`create_account` returns None); and for every run, no 4th username is ever
typed. -/
theorem username_retry_bound :
    (∀ check : Nat → Option Bool, (∀ i, check i = some true) →
       emailStep check = .failed 3) ∧
    (∀ check : Nat → Option Bool, (emailStep check).typed ≤ 3) := by
  constructor
  · intro check hall
    simp [emailStep, emailLoopAux, hall]
  · intro check
    simpa using emailLoopAux_typed_le check 3 0

/-- Witness for C1: with the taken-marker present on every attempt, the email
step fails after exactly 3 typed usernames. -/
theorem username_retry_bound_witness :
    emailStep (fun _ => some true) = .failed 3 :=
  username_retry_bound.1 (fun _ => some true) (fun _ => rfl)

/-- C10: if the page-body read raises at the attempt it is consulted, the
email is assumed accepted and the retry loop exits immediately: an unreadable
page never causes a conflict retry or an attempt failure at that check. -/
theorem unreadable_page_accepts (check : Nat → Option Bool) (i : Nat)
    (hi : i < 3) (hprev : ∀ j, j < i → check j = some true)
    (hex : check i = none) :
    emailStep check = .accepted (i + 1) := by
  interval_cases i
  · simp [emailStep, emailLoopAux, hex]
  · simp [emailStep, emailLoopAux, hprev 0 (by omega), hex]
  · simp [emailStep, emailLoopAux, hprev 0 (by omega), hprev 1 (by omega), hex]

/-- Witness for C10: a read that raises on the very first attempt exits the
loop at once with the email accepted. -/
theorem unreadable_page_accepts_witness :
    emailStep (fun _ => none) = .accepted 1 :=
  unreadable_page_accepts (fun _ => none) 0 (by decide)
    (fun j hj => absurd hj (Nat.not_lt_zero j)) rfl

theorem captchaPollAux_none (present : Nat → Bool) :
    ∀ fuel k, (∀ j, k ≤ j → j < k + fuel → present j = true) →
      captchaPollAux present k fuel = none := by
  intro fuel
  induction fuel with
  | zero => intro k _; rfl
  | succ fuel ih =>
    intro k h
    have hk : present k = true := h k (le_refl k) (by omega)
    rw [captchaPollAux, if_pos hk]
    exact ih (k + 1) (fun j hj1 hj2 => h j (by omega) (by omega))

theorem captchaPollAux_some (present : Nat → Bool) :
    ∀ fuel k k0, k ≤ k0 → k0 < k + fuel →
      (∀ j, k ≤ j → j < k0 → present j = true) → present k0 = false →
      captchaPollAux present k fuel = some k0 := by
  intro fuel
  induction fuel with
  | zero =>
    intro k k0 h1 h2 _ _
    exact absurd h2 (by omega)
  | succ fuel ih =>
    intro k k0 hk1 hk2 hall hk0
    by_cases he : k = k0
    · subst he
      rw [captchaPollAux, if_neg (by rw [hk0]; exact Bool.false_ne_true)]
    · have hpk : present k = true := hall k (le_refl k) (by omega)
      rw [captchaPollAux, if_pos hpk]
      exact ih (k + 1) k0 (by omega) (by omega)
        (fun j h1 h2 => hall j (by omega) h2) hk0

/-- C4: the CAPTCHA handler polls up to the 180-second ceiling (ticks 0..89,
two seconds apart): if the marker is gone at some tick k0 before the ceiling,
the state machine resumes at that tick (whose elapsed time 2*(k0+1) is at
most 180 s, not 180 s itself); if the marker is present at every tick within
the ceiling, the wait yields none and `create_account` returns None. -/
theorem captcha_wait_spec (present : Nat → Bool) :
    (∀ k0, k0 < 90 → (∀ j, j < k0 → present j = true) → present k0 = false →
       captchaWait present = some k0 ∧ 2 * (k0 + 1) ≤ 180) ∧
    ((∀ k, k < 90 → present k = true) → captchaWait present = none) := by
  constructor
  · intro k0 h90 hall h0
    exact ⟨captchaPollAux_some present 90 0 k0 (Nat.zero_le _) (by omega)
      (fun j _ hj => hall j hj) h0, by omega⟩
  · intro hall
    exact captchaPollAux_none present 90 0 (fun j _ hj => hall j (by omega))

/-- Witness for C4: a marker that disappears at tick 5 (12 seconds in) makes
the wait resume at tick 5, well before the 180-second ceiling. -/
theorem captcha_wait_spec_witness :
    captchaWait (fun k => decide (k < 5)) = some 5 ∧ 2 * (5 + 1) ≤ 180 :=
  (captcha_wait_spec (fun k => decide (k < 5))).1 5 (by decide)
    (fun j hj => by simp [hj]) rfl

/- ## Claim theorems: batch orchestrator -/

theorem bulkLoop_spec (rs : List (Option Account)) :
    bulkLoop rs = (rs.filterMap id, (rs.filterMap id).map accountRow) := by
  induction rs with
  | nil => rfl
  | cons r rest ih =>
    cases r with
    | some a => simp [bulkLoop, ih, List.filterMap_cons]
    | none => simp [bulkLoop, ih, List.filterMap_cons]

/-- C2: for every interleaving of successes and failures over n iterations,
`create_bulk_accounts` appends exactly one CSV row per success, in iteration
order and none for failures, completes all n iterations, reports
(successes, n) in its final summary, and returns exactly the successful
accounts. -/
theorem bulk_accounts_spec (results : List (Option Account)) :
    (create_bulk_accounts results).1 = results.filterMap id ∧
    (create_bulk_accounts results).2.1 = (results.filterMap id).map accountRow ∧
    (create_bulk_accounts results).2.1.length = (results.filterMap id).length ∧
    (create_bulk_accounts results).2.2 =
      ((results.filterMap id).length, results.length) := by
  have h := bulkLoop_spec results
  refine ⟨?_, ?_, ?_, ?_⟩ <;> simp [create_bulk_accounts, h]

/- ## Claim theorems: outcome classification -/

theorem isSuccessUrl_of_contains (url : String)
    (h : strContains url "outlook.live.com" = true) : isSuccessUrl url = true := by
  unfold isSuccessUrl success_indicators
  simp only [List.any_cons, List.any_nil, Bool.or_eq_true]
  exact Or.inl h

theorem isSuccessUrlKO_of_contains (url : String)
    (h : strContains url "outlook.live.com" = true) : isSuccessUrlKO url = true := by
  unfold isSuccessUrlKO ko_success_indicators
  simp only [List.any_cons, List.any_nil, Bool.or_eq_true]
  exact Or.inl h

theorem koPollAux_timeout (ident : Identity) (now : String) (urlAt : Nat → String)
    (hall : ∀ i, isSuccessUrlKO (urlAt i) = false) :
    ∀ fuel i, koPollAux ident now urlAt i fuel =
      ({ driver := true, email := some ident.email, password := some ident.password,
         first_name := some ident.first_name, last_name := some ident.last_name,
         birth_date := some ident.birth_date, created_at := some now,
         error := none }, List.replicate fuel 5) := by
  intro fuel
  induction fuel with
  | zero => intro i; rfl
  | succ fuel ih =>
    intro i
    rw [koPollAux, if_neg (by rw [hall i]; exact Bool.false_ne_true)]
    rw [ih (i + 1), List.replicate_succ]

theorem keepOpenVerify_timeout (ident : Identity) (now url0 pageText : String)
    (urlAt : Nat → String) (h0 : isSuccessUrlKO url0 = false)
    (ht : textSuccess pageText = false)
    (hall : ∀ i, isSuccessUrlKO (urlAt i) = false) :
    keepOpenVerify ident now url0 pageText urlAt =
      ({ driver := true, email := some ident.email, password := some ident.password,
         first_name := some ident.first_name, last_name := some ident.last_name,
         birth_date := some ident.birth_date, created_at := some now,
         error := none }, List.replicate 12 5) := by
  rw [keepOpenVerify, if_neg (by rw [h0, ht]; exact Bool.false_ne_true)]
  exact koPollAux_timeout ident now urlAt hall 12 0

/-- C3 counterexample: at the final URL https://signup.live.com/landing?step=2
with no success phrase in the page text and no later change, `create_account`
performs a single 30-second re-check, not a re-poll every 5 seconds for up to
60 seconds, and `create_account_keep_open`, which does poll 12 times at 5
seconds, then returns a result without an error key instead of classifying
the attempt as a failure. -/
theorem outcome_classifier_counterexample :
    (verifyCreate sampleAccount ambiguousUrl ambiguousUrl = (none, [30]) ∧
      ¬ ((30 : Nat) :: [] = List.replicate 12 5)) ∧
    (keepOpenVerify sampleIdentity "2026-01-01 00:00:00" ambiguousUrl ""
        (fun _ => ambiguousUrl)).1.error = none := by
  refine ⟨⟨by decide, by decide⟩, ?_⟩
  rw [(keepOpenVerify_timeout sampleIdentity "2026-01-01 00:00:00" ambiguousUrl ""
    (fun _ => ambiguousUrl) (by decide) (by decide)
    (fun _ => (by decide : isSuccessUrlKO ambiguousUrl = false)))]

/-- C3 (amended): a final URL containing outlook.live.com is classified as
Success by both variants; for an ambiguous URL (on signup.live.com with no
success indicator and no success phrase) that never changes, `create_account`
re-checks once after a single 30-second wait and then classifies Failure
(returns None), while `create_account_keep_open` re-polls every 5 seconds for
up to 60 seconds (12 polls) and on expiry returns the identity dictionary
with no error key rather than a Failure. -/
theorem outcome_classifier_amended :
    (∀ (acct : Account) (url0 after : String),
       strContains url0 "outlook.live.com" = true →
       verifyCreate acct url0 after = (some acct, [])) ∧
    (∀ (ident : Identity) (now url0 pageText : String) (urlAt : Nat → String),
       strContains url0 "outlook.live.com" = true →
       (keepOpenVerify ident now url0 pageText urlAt).1 =
         { driver := true, email := some ident.email, password := some ident.password,
           first_name := some ident.first_name, last_name := some ident.last_name,
           birth_date := some ident.birth_date, created_at := some now,
           error := none }) ∧
    (∀ (acct : Account) (url0 after : String),
       isSuccessUrl url0 = false → strContains url0 "signup.live.com" = true →
       isSuccessUrl after = false →
       verifyCreate acct url0 after = (none, [30])) ∧
    (∀ (ident : Identity) (now url0 pageText : String) (urlAt : Nat → String),
       isSuccessUrlKO url0 = false → textSuccess pageText = false →
       (∀ i, isSuccessUrlKO (urlAt i) = false) →
       keepOpenVerify ident now url0 pageText urlAt =
         ({ driver := true, email := some ident.email, password := some ident.password,
            first_name := some ident.first_name, last_name := some ident.last_name,
            birth_date := some ident.birth_date, created_at := some now,
            error := none }, List.replicate 12 5)) := by
  refine ⟨?_, ?_, ?_, ?_⟩
  · intro acct url0 after h
    rw [verifyCreate, if_pos (isSuccessUrl_of_contains url0 h)]
  · intro ident now url0 pageText urlAt h
    rw [keepOpenVerify, if_pos (by rw [isSuccessUrlKO_of_contains url0 h]; rfl)]
  · intro acct url0 after h0 hsign hafter
    rw [verifyCreate, if_neg (by rw [h0]; exact Bool.false_ne_true), if_pos hsign,
      if_neg (by rw [hafter]; exact Bool.false_ne_true)]
  · intro ident now url0 pageText urlAt h0 ht hall
    exact keepOpenVerify_timeout ident now url0 pageText urlAt h0 ht hall

/-- Witness for C3 (amended): a concrete outlook.live.com URL is classified
as Success, and the concrete ambiguous URL that never changes yields Failure
after the single 30-second re-check in `create_account`. -/
theorem outcome_classifier_amended_witness :
    verifyCreate sampleAccount "https://outlook.live.com/mail/0/" "x" =
      (some sampleAccount, []) ∧
    verifyCreate sampleAccount ambiguousUrl "https://still.nowhere" = (none, [30]) := by
  constructor
  · exact outcome_classifier_amended.1 sampleAccount "https://outlook.live.com/mail/0/"
      "x" (by decide)
  · exact outcome_classifier_amended.2.2.1 sampleAccount ambiguousUrl
      "https://still.nowhere" (by decide) (by decide) (by decide)

/-- C9: in `create_account_keep_open`, when no success indicator ever matches
and the 60-second manual-intervention window expires, the returned dictionary
still carries the full identity and a created_at timestamp, has no error key,
includes the live driver, and is equal to the dictionary a confirmed success
would return. -/
theorem keep_open_timeout_shape (ident : Identity) (now url0 pageText : String)
    (urlAt : Nat → String) (h0 : isSuccessUrlKO url0 = false)
    (ht : textSuccess pageText = false)
    (hall : ∀ i, isSuccessUrlKO (urlAt i) = false) :
    (keepOpenVerify ident now url0 pageText urlAt).1 =
      { driver := true, email := some ident.email, password := some ident.password,
        first_name := some ident.first_name, last_name := some ident.last_name,
        birth_date := some ident.birth_date, created_at := some now,
        error := none } ∧
    (keepOpenVerify ident now url0 pageText urlAt).1 =
      (keepOpenVerify ident now "https://outlook.live.com/mail/0/" pageText urlAt).1 := by
  have h := keepOpenVerify_timeout ident now url0 pageText urlAt h0 ht hall
  refine ⟨by rw [h], ?_⟩
  rw [h]
  have hs : isSuccessUrlKO "https://outlook.live.com/mail/0/" = true := by decide
  rw [keepOpenVerify, if_pos (by rw [hs]; rfl)]

/-- Witness for C9: with the ambiguous URL never changing and a page text
with no success phrase, the keep-open result has no error key and carries
the created_at timestamp. -/
theorem keep_open_timeout_shape_witness :
    (keepOpenVerify sampleIdentity "2026-01-01 00:00:00" ambiguousUrl "no phrase"
        (fun _ => ambiguousUrl)).1.error = none ∧
    (keepOpenVerify sampleIdentity "2026-01-01 00:00:00" ambiguousUrl "no phrase"
        (fun _ => ambiguousUrl)).1.created_at = some "2026-01-01 00:00:00" := by
  have h := keep_open_timeout_shape sampleIdentity "2026-01-01 00:00:00" ambiguousUrl
    "no phrase" (fun _ => ambiguousUrl) (by decide) (by decide)
    (fun _ => (by decide : isSuccessUrlKO ambiguousUrl = false))
  exact ⟨by rw [h.1], by rw [h.1]⟩
